import Mathlib

/-!
Verification development for the deepchecks excerpt: a shallow embedding of
the NLP weak-segments performance check (`WeakSegmentsAbstractText.run_logic`),
the NLP `ConflictingLabels.run_logic`, the recommender `_DummyModel.__init__`,
and the argument-validation prelude of tabular `SingleDatasetCheck.run`,
together with theorems settling the specification claims about them.

Scores and thresholds are modelled as rational numbers; machine floats are
treated as exact arithmetic at the design level.  Components of the repository
that the excerpt only calls (sampling, feature-table building, target
encoding, the segment search engine, per-sample metrics, scorer resolution)
are modelled from the specification and are marked as such in their doc
comments.
-/

namespace DeepchecksSpec

/-- Errors surfaced by checks, mirroring the deepchecks error taxonomy:
`valueError` is `DeepchecksValueError` (a configuration error),
`notSupported` is `DeepchecksNotSupportedError` (an unsupported-capability
error) and `processError` is `DeepchecksProcessError` (a processing failure). -/
inductive DCErr where
  | valueError (msg : String)
  | notSupported (msg : String)
  | processError (msg : String)
deriving DecidableEq

/-- Observable effects of a weak-segments run, used to state when a model
call, a score computation or the segment search happens. -/
inductive WsEvent where
  | predictCall
  | predictProbaCall
  | scoreComputed
  | segmentSearch
deriving DecidableEq

/-- NLP task types (`deepchecks.nlp.task_type.TaskType`). -/
inductive NlpTaskType where
  | textClassification
  | tokenClassification
  | otherTask
deriving DecidableEq

/-- Rendering of the task type used in error message interpolation
(`f-string` over the `TaskType` enum member). -/
def taskTypeName : NlpTaskType → String
  | .textClassification => "TaskType.TEXT_CLASSIFICATION"
  | .tokenClassification => "TaskType.TOKEN_CLASSIFICATION"
  | .otherTask => "TaskType.OTHER"

/-- Arithmetic mean of a list of rationals (sum divided by length;
the empty list yields 0 by the rational division-by-zero convention). -/
def meanQ (l : List ℚ) : ℚ := l.sum / (l.length : ℚ)

/-- Round a rational to the nearest integer, ties to even, as Python's
builtin `round` does on exact values. -/
def roundHalfEven (y : ℚ) : ℤ :=
  let f := ⌊y⌋
  let r := y - (f : ℚ)
  if r < 1/2 then f
  else if 1/2 < r then f + 1
  else if f % 2 = 0 then f else f + 1

/-- Rounding to 3 decimal places, modelling Python's `round(x, 3)`. -/
def round3 (q : ℚ) : ℚ := ((roundHalfEven (q * 1000) : ℤ) : ℚ) / 1000

/-- Deterministic seeded reordering of a list: a rotation by the seed.
Any deterministic permutation family suffices for the model; what matters
is that the result is a function of the seed alone. -/
def seededShuffle (seed : Nat) (rows : List α) : List α :=
  let k := seed % (rows.length + 1)
  rows.drop k ++ rows.take k

/-- Modelled from the spec: `TextData.sample` is absent from `src/`.
Per the specification, sampling of rows is a deterministic seeded subsample
of at most `n` rows, reproducible given the same seed; when the data has at
most `n` rows it is returned unchanged. -/
def sampleRows (seed n : Nat) (rows : List α) : List α :=
  if rows.length ≤ n then rows else (seededShuffle seed rows).take n

/-- One NLP sample: original row identifier, label, and the vector of
metadata/property values the check can segment by. -/
structure TextSample where
  idx : Nat
  label : Nat
  feats : List ℚ
deriving DecidableEq

/-- An NLP dataset for the weak-segments check: the ordered samples plus the
positions of the columns declared categorical. -/
structure TextDataset where
  samples : List TextSample
  catCols : List Nat

/-- Configuration of `WeakSegmentsAbstractText` (its constructor fields). -/
structure WsConfig where
  segmentBy : String
  columns : Option (List Nat)
  ignoreColumns : Option (List Nat)
  nTopFeatures : Option Nat
  segmentMinimumSizeRatio : ℚ
  scorePerSample : Option (Nat → ℚ)
  nSamples : Nat
  categoricalAggregationThreshold : ℚ
  nToShow : Nat
  alternativeScorer : Option (List Nat → List (List ℚ) → List TextSample → ℚ)

/-- Scorer shape used for the dummy-model evaluation: it receives the dummy
model's stored predictions and probabilities and the encoded rows, and
returns an aggregate score. -/
def ScorerFn := List Nat → List (List ℚ) → List TextSample → ℚ

/-- Context of an NLP weak-segments run: the caller-supplied seed, the task
type flags, the model adapter (`predict` and the optional `predict_proba`
capability), model classes, and the collaborators that the excerpt calls but
does not define: the per-sample negative cross-entropy metric
(`calculate_neg_cross_entropy_per_sample`) and the default scorer produced by
`context.get_single_scorer` when no alternative scorer is supplied.  Both
collaborators are modelled from the spec as explicit function fields. -/
structure WsContext where
  randomState : Nat
  taskType : NlpTaskType
  multiLabel : Bool
  modelPredict : List TextSample → List Nat
  modelPredictProba : Option (List TextSample → List (List ℚ))
  modelClasses : List Nat
  negCE : List Nat → List (List ℚ) → List Nat → List ℚ
  defaultScorer : List Nat → List (List ℚ) → List TextSample → ℚ

/-- Number of distinct values in a list of rationals. -/
def distinctCount (l : List ℚ) : Nat := l.eraseDups.length

/-- Modelled from the spec: `get_relevant_data_table` is absent from `src/`.
Per §4.1 it selects the columns to segment by: the allow/deny lists
`columns`/`ignore_columns` are mutually exclusive (violating this is a
configuration error); columns with fewer than two distinct observed values
are dropped; when more than `n_top_features` columns remain, a deterministic
seeded subsample of columns is taken; zero remaining columns is a
configuration error.  Rows pass through unchanged.  Returns the feature
table rows, the selected column positions and the selected categorical
column positions. -/
def getRelevantDataTable (cfg : WsConfig) (seed : Nat) (catColsDecl : List Nat)
    (rows : List TextSample) :
    Except DCErr (List TextSample × List Nat × List Nat) :=
  if cfg.columns.isSome && cfg.ignoreColumns.isSome then
    .error (.valueError "Cannot receive both columns and ignore_columns arguments")
  else
    let nCols := ((rows.head?).map (fun r => r.feats.length)).getD 0
    let base := List.range nCols
    let allowed :=
      match cfg.columns with
      | some cs => base.filter (fun j => j ∈ cs)
      | none =>
        match cfg.ignoreColumns with
        | some igs => base.filter (fun j => j ∉ igs)
        | none => base
    let usable := allowed.filter (fun j =>
      2 ≤ distinctCount (rows.map (fun r => r.feats.getD j 0)))
    let selected :=
      match cfg.nTopFeatures with
      | none => usable
      | some k => if usable.length ≤ k then usable else (seededShuffle seed usable).take k
    if selected.isEmpty then
      .error (.valueError ("Check requires meaningful " ++ cfg.segmentBy ++
        " columns in order to run."))
    else
      .ok (rows, selected, selected.filter (fun j => j ∈ catColsDecl))

/-- Modelled from the spec: the target statistic that
`_target_encode_categorical_features_fill_na` (absent from `src/`) assigns to
the value `v` of categorical column `j`: categories whose frequency is below
the aggregation threshold are merged into one "Other" bucket, and the
encoding is the mean label over the rows of the (possibly bucketed)
category.  Feature values are total in this model, so the missing-value
sentinel of §4.2 has no occurrences. -/
def targetEncodeValue (rows : List TextSample) (j : Nat) (thr : ℚ) (v : ℚ) : ℚ :=
  let colVals := rows.map (fun r => r.feats.getD j 0)
  let n := (colVals.length : ℚ)
  let freq : ℚ → ℚ := fun x => ((colVals.count x : ℚ) / n)
  let inBucket : ℚ → Bool := fun x =>
    if freq v < thr then decide (freq x < thr) else decide (x = v)
  meanQ ((rows.filter (fun r => inBucket (r.feats.getD j 0))).map
    (fun r => (r.label : ℚ)))

/-- Modelled from the spec: categorical columns are replaced by their target
encoding; numerical columns pass through; row order and the label column are
preserved (§4.2). -/
def targetEncode (rows : List TextSample) (catCols : List Nat) (thr : ℚ) :
    List TextSample :=
  rows.map (fun r =>
    { r with feats := r.feats.mapIdx (fun j v =>
        if j ∈ catCols then targetEncodeValue rows j thr v else v) })

/-- The encoded dataset handed to the segment search: encoded rows plus the
selected column positions. -/
structure EncodedDataset where
  rows : List TextSample
  cols : List Nat
deriving DecidableEq

/-- Dummy model wrapping static predictions, modelling the tabular
`_DummyModel` constructed at line 84 of the weak-segments check (the tabular
class itself is absent from `src/`). -/
structure TabDummyModel where
  yPredTest : List Nat
  yProbaTest : List (List ℚ)
  validateDataOnPredict : Bool

/-- Modelled from the spec and the recommender `_DummyModel`: predicting with
static predictions optionally validates the incoming data against the stored
data by drawing a random probe of rows from the ambient (process-global)
random state; with validation disabled the stored predictions are returned
directly and the ambient state is never read. -/
def dummyModelPredict (ambient : Nat) (m : TabDummyModel) (rows : List TextSample) :
    Except DCErr (List Nat) :=
  if m.validateDataOnPredict then
    let probe := ambient % (rows.length + 1)
    if (rows.drop probe).length + probe == rows.length then .ok m.yPredTest
    else .error (.valueError ("Data that has not been seen before passed for " ++
      "inference with static predictions. Pass a real model to resolve this"))
  else .ok m.yPredTest

/-- Error message raised when the segment search returns no segment
(`weak_segments_performance.py` lines 95-97). -/
def wsEmptySearchMsg (segmentBy : String) : String :=
  "WeakSegmentsPerformance was unable to train an error model to find weak segments. Try increasing n_samples or supply more " ++ segmentBy ++ "."

/-- Error message raised when predicted probabilities are required but the
model lacks `predict_proba` (`weak_segments_performance.py` lines 74-77). -/
def wsNoProbaMsg : String :=
  "Predicted probabilities not supplied. The weak segment checks relies" ++
    " on cross entropy error that requires predicted probabilities, " ++
    "rather than only predicted classes."

/-- Per-sample scores and reported average, embedding lines 63-87 of
`WeakSegmentsAbstractText.run_logic`: on the provided-scores path the
caller's array is indexed down to the feature-table index and the average is
its rounded mean; otherwise the model is asked for predictions and, for text
classification, class probabilities (an unsupported-capability error when
`predict_proba` is missing), the per-sample scores are the negative
cross-entropy values, a dummy model wrapping the predictions is built with
`validate_data_on_predict` disabled, and the average is the rounded output of
the resolved scorer on that dummy model; any other task type is an
unsupported-capability error.  The second component records the observable
events in order. -/
def wsComputeScores (cfg : WsConfig) (ctx : WsContext) (ambient : Nat)
    (sampled ftRows : List TextSample) (encRows : List TextSample) :
    Except DCErr (List ℚ × ℚ) × List WsEvent :=
  match cfg.scorePerSample with
  | some f =>
    let scores := ftRows.map (fun r => f r.idx)
    (.ok (scores, round3 (meanQ scores)), [])
  | none =>
    let preds := ctx.modelPredict sampled
    if ctx.taskType = .textClassification then
      match ctx.modelPredictProba with
      | none => (.error (.notSupported wsNoProbaMsg), [.predictCall])
      | some pp =>
        let yProba := pp sampled
        let scores := ctx.negCE (sampled.map (fun r => r.label)) yProba ctx.modelClasses
        let dummy : TabDummyModel := ⟨preds, yProba, false⟩
        let scorer := cfg.alternativeScorer.getD ctx.defaultScorer
        match dummyModelPredict ambient dummy encRows with
        | .error e => (.error e, [.predictCall, .predictProbaCall, .scoreComputed])
        | .ok dpreds =>
          (.ok (scores, round3 (scorer dpreds dummy.yProbaTest encRows)),
            [.predictCall, .predictProbaCall, .scoreComputed])
    else
      (.error (.notSupported ("Weak segments performance check is not supported for " ++
        taskTypeName ctx.taskType ++ ".")), [.predictCall])

/-- A discovered weak segment: the defining single-column predicate (value
below or above the threshold), the member row positions, and the segment's
mean per-sample score. -/
structure WeakSegment where
  col : Nat
  threshold : ℚ
  isUpper : Bool
  members : List Nat
  segScore : ℚ
deriving DecidableEq

/-- Values of one encoded column. -/
def colValues (encRows : List TextSample) (j : Nat) : List ℚ :=
  encRows.map (fun r => r.feats.getD j 0)

/-- Lower median of a list of rationals (deterministic split point). -/
def medianQ (l : List ℚ) : ℚ :=
  (l.insertionSort (· ≤ ·)).getD ((l.length - 1) / 2) 0

/-- Build the candidate segment on one side of a column's split point. -/
def mkSegment (encRows : List TextSample) (scores : List ℚ) (j : Nat) (t : ℚ)
    (upper : Bool) : WeakSegment :=
  let ms := (List.range encRows.length).filter (fun i =>
    let v := (encRows.getD i ⟨0, 0, []⟩).feats.getD j 0
    if upper then decide (t < v) else decide (v ≤ t))
  { col := j, threshold := t, isUpper := upper, members := ms,
    segScore := meanQ (ms.map (fun i => scores.getD i 0)) }

/-- Modelled from the spec: the candidate segments a shallow tree ensemble
reads off its leaves (§4.4), modelled at depth one: each selected column is
split at its median, yielding one lower and one upper candidate segment. -/
def segmentCandidates (enc : EncodedDataset) (scores : List ℚ) : List WeakSegment :=
  enc.cols.flatMap (fun j =>
    let t := medianQ (colValues enc.rows j)
    [mkSegment enc.rows scores j t false, mkSegment enc.rows scores j t true])

/-- Ranking order of §4.4: weaker segments (lower mean score) first, ties
broken by larger segment size. -/
def segWeaker (a b : WeakSegment) : Prop :=
  a.segScore < b.segScore ∨ (a.segScore = b.segScore ∧ b.members.length ≤ a.members.length)

instance : DecidableRel segWeaker := fun a b => by
  unfold segWeaker
  infer_instance

/-- Modelled from the spec: `_weak_segments_search` lives in
`WeakSegmentAbstract`, absent from `src/`.  Per §4.4 the search enumerates
candidate segments from shallow splits, discards every candidate whose size
violates the minimum size ratio, and ranks the survivors by weakness with
larger segments first on ties; it is a deterministic function of its
arguments. -/
def weakSegmentsSearch (enc : EncodedDataset) (scores : List ℚ) (ratio : ℚ) :
    List WeakSegment :=
  let valid := (segmentCandidates enc scores).filter (fun s =>
    decide (ratio * (enc.rows.length : ℚ) ≤ (s.members.length : ℚ)))
  valid.insertionSort segWeaker

/-- The structured result of a weak-segments run: the full ranked segment
list plus the reported average score. -/
structure WsResultValue where
  segments : List WeakSegment
  avgScore : ℚ
deriving DecidableEq

/-- Embedding of `WeakSegmentsAbstractText.run_logic`: the token-classification
and multi-label guards, seeded row sampling, feature-table construction,
target encoding, the scoring block (`wsComputeScores`), the segment search,
and the empty-search processing failure.  Returns the check result (or
error) together with the ordered list of observable events.  The `ambient`
argument stands for the process-global random state; every seeded operation
receives `ctx.randomState` instead. -/
def wsRunLogic (cfg : WsConfig) (ctx : WsContext) (ambient : Nat)
    (data : TextDataset) : Except DCErr WsResultValue × List WsEvent :=
  if ctx.taskType = .tokenClassification then
    (.error (.notSupported "The check is irrelevant for token classification tasks"), [])
  else if ctx.multiLabel then
    (.error (.notSupported "The check is irrelevant for multi-label classification tasks"), [])
  else
    let sampled := sampleRows ctx.randomState cfg.nSamples data.samples
    match getRelevantDataTable cfg ctx.randomState data.catCols sampled with
    | .error e => (.error e, [])
    | .ok (ftRows, cols, cats) =>
      let encRows := targetEncode ftRows cats cfg.categoricalAggregationThreshold
      match wsComputeScores cfg ctx ambient sampled ftRows encRows with
      | (.error e, evs) => (.error e, evs)
      | (.ok (scores, avg), evs) =>
        let segs := weakSegmentsSearch ⟨encRows, cols⟩ scores cfg.segmentMinimumSizeRatio
        let evs := evs ++ [.segmentSearch]
        if segs.isEmpty then
          (.error (.processError (wsEmptySearchMsg cfg.segmentBy)), evs)
        else
          (.ok ⟨segs, avg⟩, evs)

/-- Observable effects of a conflicting-labels run. -/
inductive ClEvent where
  | hashing
  | grouping
deriving DecidableEq

/-- One sample of the conflicting-labels check: original row identifier, the
text, and the label (a singleton list for single-label classification, a
tuple for token classification and multi-label tasks). -/
structure ClSample where
  idx : Nat
  text : String
  label : List Nat
deriving DecidableEq

/-- Dataset of the conflicting-labels check. -/
structure ClDataset where
  samples : List ClSample
  taskType : NlpTaskType
  multiLabel : Bool

/-- Configuration of `ConflictingLabels` (the constructor fields relevant to
`run_logic`; the text-normalization flags are folded into the hash
collaborator). -/
structure ClConfig where
  nToShow : Nat
  nSamples : Nat
  randomState : Nat

/-- Structured result of the conflicting-labels check: the fraction of
conflicting samples and the list of (duplicate-group, sample) pairs. -/
structure ClResultValue where
  percentConflicting : ℚ
  conflictingSamples : List (Nat × List Nat)
deriving DecidableEq

/-- Embedding of `ConflictingLabels.run_logic`: seeded sampling, the
empty-dataset configuration error, hashing of the normalized texts (the
normalization and hashing routines are external collaborators, supplied as
`hashFn`), the task-type branch on the label representation, and the
grouping of samples by hash counting distinct labels per group.  The second
component records the observable events in order. -/
def clRunLogic (cfg : ClConfig) (hashFn : String → Nat) (ds : ClDataset) :
    Except DCErr ClResultValue × List ClEvent :=
  let sampled := sampleRows cfg.randomState cfg.nSamples ds.samples
  let n := sampled.length
  if n = 0 then
    (.error (.valueError "Dataset cannot be empty"), [])
  else
    let hashes := sampled.map (fun s => hashFn s.text)
    if ds.taskType = .tokenClassification ∨ ds.multiLabel = true ∨
        ds.taskType = .textClassification then
      let pairs := hashes.zip (sampled.map (fun s => s.label))
      let ambiguousHashes := hashes.eraseDups.filter (fun h =>
        2 ≤ (((pairs.filter (fun p => p.1 = h)).map (fun p => p.2)).eraseDups).length)
      let ambiguous := pairs.filter (fun p => p.1 ∈ ambiguousHashes)
      let value : ClResultValue :=
        { percentConflicting := (ambiguous.length : ℚ) / (n : ℚ),
          conflictingSamples := ambiguous }
      (.ok value, [.hashing, .grouping])
    else
      (.error (.valueError ("Unknow task type - " ++ taskTypeName ds.taskType)),
        [.hashing])

/-- A recommender dataset as seen by `_DummyModel`: the index of its
underlying dataframe and its feature columns. -/
structure RecDataset where
  index : List String
  featuresColumns : List (List ℚ)
deriving DecidableEq

/-- State of the recommender `_DummyModel` after construction. -/
structure RecDummyModel where
  featureDfList : List (List (List ℚ))
  predictions : List (String × ℚ)
  validateDataOnPredict : Bool
deriving DecidableEq

/-- Embedding of the recommender `_DummyModel.__init__`
(`recommender/context.py` lines 54-86).  The in-place mutation of the
caller's datasets is made explicit by returning the post-construction train
and test datasets alongside the model state: when both datasets are given
and their index sets intersect, both indexes are reassigned in place with
`train-`/`test-` prefixes; otherwise the datasets are untouched.  The
feature-frame list and the concatenated prediction series are then built
from the (possibly rewritten) datasets. -/
def recDummyModelInit (train test : Option RecDataset)
    (yPredTrain yPredTest : Option (List ℚ)) (validateDataOnPredict : Bool) :
    Option RecDataset × Option RecDataset × RecDummyModel :=
  let hasCommon :=
    match train, test with
    | some tr, some te => tr.index.any (fun i => te.index.contains i)
    | _, _ => false
  let train' := if hasCommon then
      train.map (fun tr => { tr with index := tr.index.map (fun x => "train-" ++ x) })
    else train
  let test' := if hasCommon then
      test.map (fun te => { te with index := te.index.map (fun x => "test-" ++ x) })
    else test
  let pairs := [(train', yPredTrain), (test', yPredTest)]
  let featureDfList := pairs.filterMap (fun p => p.1.map (fun ds => ds.featuresColumns))
  let predictions := pairs.foldr (fun p acc =>
    match p with
    | (some ds, some yp) => ds.index.zip yp ++ acc
    | _ => acc) []
  (train', test',
    { featureDfList := featureDfList, predictions := predictions,
      validateDataOnPredict := validateDataOnPredict })

/-- Tabular task types (`deepchecks.tabular.utils.task_type.TaskType`); only
the recommendation/non-recommendation distinction matters to the run
prelude. -/
inductive TabTaskType where
  | recommendation
  | classification
  | regression
deriving DecidableEq

/-- Deprecation warnings that `SingleDatasetCheck.run` can emit. -/
inductive RunWarning where
  | yPredTrainDeprecated
  | yProbaTrainDeprecated
  | yPredTestDeprecated
  | yProbaTestDeprecated
deriving DecidableEq

/-- Embedding of the argument-validation prelude of tabular
`SingleDatasetCheck.run` (`tabular/base_checks.py` lines 83-106): the
item-dataset and model-classes guards, the deprecation warnings, the two
conflicting-argument checks — the second of which re-tests `y_pred_train`
and `y_pred` instead of `y_proba_train` and `y_proba`, exactly as the source
does — and the final folding of the deprecated arguments into the effective
`y_pred_train`/`y_proba_train` passed to the context.  Returns the emitted
warnings and the two effective arguments. -/
def singleDatasetRunPrelude (labelType : TabTaskType) (itemDataset : Option Unit)
    (modelClasses : Option (List Nat))
    (yPred yProba yPredTrain yPredTest yProbaTrain yProbaTest : Option (List ℚ)) :
    Except DCErr (List RunWarning × Option (List ℚ) × Option (List ℚ)) :=
  if labelType ≠ .recommendation ∧ itemDataset.isSome then
    .error (.notSupported "item_dataset is not supported for tabular datasets.")
  else if labelType = .recommendation ∧ modelClasses.isSome then
    .error (.notSupported "model_classes is not supported for recommendation datasets.")
  else
    let w1 := if yPredTrain.isSome then [RunWarning.yPredTrainDeprecated] else []
    if yPredTrain.isSome ∧ yPred.isSome then
      .error (.valueError ("Cannot accept both y_pred_train and y_pred, please pass the data only" ++
        " to y_pred."))
    else
      let w2 := if yProbaTrain.isSome then [RunWarning.yProbaTrainDeprecated] else []
      if yPredTrain.isSome ∧ yPred.isSome then
        .error (.valueError ("Cannot accept both y_proba_train and y_proba, please pass the data only" ++
          " to y_proba."))
      else
        let w3 := if yPredTest.isSome then [RunWarning.yPredTestDeprecated] else []
        let w4 := if yProbaTest.isSome then [RunWarning.yProbaTestDeprecated] else []
        .ok (w1 ++ w2 ++ w3 ++ w4,
          (yPredTrain.orElse (fun _ => yPred)),
          (yProbaTrain.orElse (fun _ => yProba)))

/-- Sampling with a zero sample budget yields the empty row list. -/
lemma sampleRows_zero (seed : Nat) (rows : List α) : sampleRows seed 0 rows = [] := by
  unfold sampleRows
  split
  case isTrue h => exact List.eq_nil_of_length_eq_zero (Nat.le_zero.mp h)
  case isFalse h => simp

/-- On an empty sample set the feature-table builder always fails with a
configuration (value) error: either the allow/deny lists conflict, or no
usable column remains. -/
lemma getRelevantDataTable_nil (cfg : WsConfig) (seed : Nat) (catColsDecl : List Nat) :
    ∃ msg, getRelevantDataTable cfg seed catColsDecl [] = .error (.valueError msg) := by
  unfold getRelevantDataTable
  split
  case isTrue h => exact ⟨_, rfl⟩
  case isFalse h =>
    rcases hc : cfg.columns with _ | cs <;>
      rcases hi : cfg.ignoreColumns with _ | igs <;>
      rcases ht : cfg.nTopFeatures with _ | k <;>
      simp [hc, hi, ht]

/-- The scoring block never reads the ambient random state: the only
potential consumer is dummy-model validation, and the run constructs the
dummy model with validation disabled. -/
lemma wsComputeScores_ambient (cfg : WsConfig) (ctx : WsContext) (a b : Nat)
    (sampled ftRows encRows : List TextSample) :
    wsComputeScores cfg ctx a sampled ftRows encRows =
      wsComputeScores cfg ctx b sampled ftRows encRows := by
  unfold wsComputeScores
  rcases hs : cfg.scorePerSample with _ | f
  · rcases hp : ctx.modelPredictProba with _ | pp <;>
      simp [hs, hp, dummyModelPredict]
  · simp [hs]

/-- Two concrete samples used by the concrete runs below: row 0 has label 0
and property value 1, row 1 has label 1 and property value 5. -/
def rows2 : List TextSample := [⟨0, 0, [1]⟩, ⟨1, 1, [5]⟩]

/-- Accuracy as an aggregate scorer: the fraction of dummy-model predictions
equal to the label column — the standard sklearn accuracy scorer a caller
can resolve for classification. -/
def accuracyScorer : List Nat → List (List ℚ) → List TextSample → ℚ :=
  fun preds _probas encRows =>
    (((preds.zip (encRows.map (fun r => r.label))).countP (fun p => p.1 == p.2) : ℚ)) /
      (encRows.length : ℚ)

/-- One-hot probability vector over the two classes 0 and 1. -/
def oneHot2 (lab : Nat) : List ℚ := if lab = 0 then [1, 0] else [0, 1]

/-- Concrete check configuration: the `PropertySegmentsPerformance` defaults
(`n_top_properties=10`, `segment_minimum_size_ratio=0.05`, `n_samples=10000`,
`categorical_aggregation_threshold=0.05`, `n_to_show=3`), no caller-supplied
scores and no alternative scorer. -/
def cfgC1 : WsConfig :=
  { segmentBy := "properties", columns := none, ignoreColumns := none,
    nTopFeatures := some 10, segmentMinimumSizeRatio := 1/20,
    scorePerSample := none, nSamples := 10000,
    categoricalAggregationThreshold := 1/20, nToShow := 3,
    alternativeScorer := none }

/-- Concrete context: a perfect binary text classifier whose `predict_proba`
returns the one-hot vector of the true class.  Its per-sample negative
cross-entropy is therefore exactly `-log 1 = 0` for every sample, which is
what the `negCE` collaborator instance returns here, and the resolved
accuracy scorer returns 1. -/
def ctxC1 : WsContext :=
  { randomState := 42, taskType := .textClassification, multiLabel := false,
    modelPredict := fun rows => rows.map (fun r => r.label),
    modelPredictProba := some (fun rows => rows.map (fun r => oneHot2 r.label)),
    modelClasses := [0, 1],
    negCE := fun labels _probas _classes => labels.map (fun _ => 0),
    defaultScorer := accuracyScorer }

/-- Concrete dataset holding the two samples, with no categorical column. -/
def dataC1 : TextDataset := { samples := rows2, catCols := [] }

/-- The two segments the modelled search finds on `rows2` (split of the
single property column at its median value 1). -/
def segsC1 : List WeakSegment :=
  [⟨0, 1, false, [0], 0⟩, ⟨0, 1, true, [1], 0⟩]

/-- Candidate segments of the concrete two-row dataset, with the segment
scores left as unreduced means (the median split point of the single column
with values 1 and 5 is 1). -/
lemma cand_rows2_raw : segmentCandidates ⟨rows2, [0]⟩ [0, 0] =
    [⟨0, 1, false, [0], meanQ [0]⟩, ⟨0, 1, true, [1], meanQ [0]⟩] := rfl

/-- Mean of a singleton zero list. -/
lemma meanQ_single : meanQ [(0 : ℚ)] = 0 := by simp [meanQ]

/-- Candidate segments of the concrete two-row dataset. -/
lemma cand_rows2 : segmentCandidates ⟨rows2, [0]⟩ [0, 0] = segsC1 := by
  rw [cand_rows2_raw, meanQ_single]
  rfl

/-- Search result on the two-row dataset at minimum size ratio 1/20: both
size-1 candidates survive the filter. -/
lemma search_rows2_120 : weakSegmentsSearch ⟨rows2, [0]⟩ [0, 0] (1/20) = segsC1 := by
  unfold weakSegmentsSearch
  rw [cand_rows2]
  simp only [segsC1, List.filter_cons, List.filter_nil]
  norm_num [segWeaker, rows2, List.insertionSort, List.orderedInsert]

/-- Search result on the two-row dataset at minimum size ratio 1/2: both
size-1 candidates survive the filter (1/2 of 2 samples is 1). -/
lemma search_rows2_12 : weakSegmentsSearch ⟨rows2, [0]⟩ [0, 0] (1/2) = segsC1 := by
  unfold weakSegmentsSearch
  rw [cand_rows2]
  simp only [segsC1, List.filter_cons, List.filter_nil]
  norm_num [segWeaker, rows2, List.insertionSort, List.orderedInsert]

/-- Search result on the two-row dataset at minimum size ratio 9/10: both
size-1 candidates are below 9/10 of 2 samples and are discarded. -/
lemma search_rows2_910 : weakSegmentsSearch ⟨rows2, [0]⟩ [0, 0] (9/10) = [] := by
  unfold weakSegmentsSearch
  rw [cand_rows2]
  simp only [segsC1, List.filter_cons, List.filter_nil]
  norm_num [rows2, List.insertionSort]

/-- The accuracy of the perfect predictions on the two-row dataset, as the
unreduced quotient. -/
lemma acc_eval : accuracyScorer [0, 1] [[1, 0], [0, 1]] rows2 = (2 : ℚ)/2 := rfl

/-- Rounded accuracy of the perfect predictions: 1. -/
lemma round3_acc : round3 (accuracyScorer [0, 1] [[1, 0], [0, 1]] rows2) = 1 := by
  rw [acc_eval]
  norm_num [round3, roundHalfEven]

/-- Rounded mean of the all-zero two-element score list: 0. -/
lemma round3_mean00 : round3 (meanQ [(0 : ℚ), 0]) = 0 := by
  norm_num [round3, roundHalfEven, meanQ]

/-- Full evaluation of the concrete model-path run: the reported average is
the rounded accuracy-scorer output (1), while the per-sample neg-CE scores
of this run are all zero. -/
lemma run_eval_C1 : wsRunLogic cfgC1 ctxC1 0 dataC1 =
    (.ok ⟨segsC1, 1⟩,
      [WsEvent.predictCall, WsEvent.predictProbaCall, WsEvent.scoreComputed,
        WsEvent.segmentSearch]) := by
  calc wsRunLogic cfgC1 ctxC1 0 dataC1
      = (if (weakSegmentsSearch ⟨rows2, [0]⟩ [0, 0] (1/20)).isEmpty then
          ((.error (.processError (wsEmptySearchMsg "properties")) :
            Except DCErr WsResultValue),
            [WsEvent.predictCall, WsEvent.predictProbaCall, WsEvent.scoreComputed,
              WsEvent.segmentSearch])
        else
          (.ok ⟨weakSegmentsSearch ⟨rows2, [0]⟩ [0, 0] (1/20),
            round3 (accuracyScorer [0, 1] [[1, 0], [0, 1]] rows2)⟩,
            [WsEvent.predictCall, WsEvent.predictProbaCall, WsEvent.scoreComputed,
              WsEvent.segmentSearch])) := rfl
    _ = _ := by
      rw [search_rows2_120, round3_acc]
      rfl

/-- C10 (confirmed): in `SingleDatasetCheck.run`, supplying both
`y_proba_train` and `y_proba` with `y_pred_train` and `y_pred` left `None`
never raises: the guard intended to reject conflicting probability arguments
re-tests `y_pred_train` and `y_pred`, so the call proceeds with the supplied
`y_proba_train` after only the deprecation warning. -/
theorem run_proba_conflict_guard_ineffective (labelType : TabTaskType) (a b : List ℚ) :
    singleDatasetRunPrelude labelType none none none (some b) none none (some a) none =
      .ok ([RunWarning.yProbaTrainDeprecated], none, some a) := by
  cases labelType <;> rfl

/-- C2 (counterexample): constructing the recommender `_DummyModel` from a
train and a test dataset that share the index `"0"` rewrites the caller's
train dataset index in place to `"train-0"` — the dataset is not left
unchanged. -/
theorem dummy_model_mutates_on_common_index :
    (recDummyModelInit (some ⟨["0"], [[1]]⟩) (some ⟨["0"], [[2]]⟩) none none true).1 =
      some ⟨["train-0"], [[1]]⟩ ∧
    (recDummyModelInit (some ⟨["0"], [[1]]⟩) (some ⟨["0"], [[2]]⟩) none none true).1 ≠
      some ⟨["0"], [[1]]⟩ := by
  exact ⟨rfl, by decide⟩

/-- C2 (amended): the pipeline leaves the caller's datasets unchanged except
in `_DummyModel.__init__` when train and test are both supplied and share an
index: whenever one dataset is missing or their index sets are disjoint,
construction returns both datasets exactly as given. -/
theorem dummy_model_disjoint_data_unchanged
    (train test : Option RecDataset) (ypt ypte : Option (List ℚ)) (v : Bool)
    (h : ∀ i ∈ (train.map RecDataset.index).getD [], i ∉ (test.map RecDataset.index).getD []) :
    (recDummyModelInit train test ypt ypte v).1 = train ∧
    (recDummyModelInit train test ypt ypte v).2.1 = test := by
  unfold recDummyModelInit
  rcases train with _ | tr
  · simp
  · rcases test with _ | te
    · simp
    · have hc : tr.index.any (fun i => te.index.contains i) = false := by
        rw [List.any_eq_false]
        intro i hi
        simpa using h i hi
      simp only [hc]
      simp

/-- C2 (witness for the amended theorem): concrete disjoint-index datasets
pass through `_DummyModel.__init__` unchanged. -/
theorem dummy_model_disjoint_data_unchanged_witness :
    (recDummyModelInit (some ⟨["0"], [[1]]⟩) (some ⟨["1"], [[2]]⟩) none none true).1 =
      some ⟨["0"], [[1]]⟩ ∧
    (recDummyModelInit (some ⟨["0"], [[1]]⟩) (some ⟨["1"], [[2]]⟩) none none true).2.1 =
      some ⟨["1"], [[2]]⟩ := by
  refine dummy_model_disjoint_data_unchanged _ _ _ _ _ ?_
  intro i hi
  simp at hi
  subst hi
  decide

/-- C3 (confirmed): every check run on an empty sample set (`n_samples = 0`)
raises a configuration error immediately — the conflicting-labels check
raises its `Dataset cannot be empty` value error before any hashing or
grouping, and the weak-segments check raises a value error from the
feature-table step before any model call or segment search; neither returns
an empty success result. -/
theorem empty_sample_set_config_error :
    (∀ (cfg : ClConfig) (hashFn : String → Nat) (ds : ClDataset),
      clRunLogic { cfg with nSamples := 0 } hashFn ds =
        (.error (.valueError "Dataset cannot be empty"), [])) ∧
    (∀ (cfg : WsConfig) (ctx : WsContext) (a : Nat) (data : TextDataset),
      ∃ msg,
        wsRunLogic { cfg with nSamples := 0 }
          { ctx with taskType := .textClassification, multiLabel := false } a data =
          (.error (.valueError msg), [])) := by
  constructor
  · intro cfg hashFn ds
    simp [clRunLogic, sampleRows_zero]
  · intro cfg ctx a data
    obtain ⟨msg, hmsg⟩ := getRelevantDataTable_nil { cfg with nSamples := 0 }
      ({ ctx with taskType := .textClassification, multiLabel := false } : WsContext).randomState
      data.catCols
    exact ⟨msg, by simp [wsRunLogic, sampleRows_zero, hmsg]⟩

/-- C7 (confirmed): a weak-segments run is a deterministic function of the
data, the model, the configuration and the caller-supplied seed; it never
reads the ambient random state (modelled by the `ambient` argument, whose
only potential consumer — dummy-model data validation — is disabled by the
run), so two runs on identical inputs produce identical ranked segment
lists and the same average score. -/
theorem ws_run_ambient_independent (cfg : WsConfig) (ctx : WsContext)
    (data : TextDataset) (a b : Nat) :
    wsRunLogic cfg ctx a data = wsRunLogic cfg ctx b data := by
  unfold wsRunLogic
  split
  · rfl
  · split
    · rfl
    · rcases hg : getRelevantDataTable cfg ctx.randomState data.catCols
        (sampleRows ctx.randomState cfg.nSamples data.samples) with e | ⟨ftRows, cols, cats⟩
      · simp [hg]
      · simp only [hg]
        rw [wsComputeScores_ambient cfg ctx a b]

/-- On the provided-scores path the event trace of a whole run is either
empty (an error before the search) or the single segment-search event. -/
lemma ws_trace_provided (cfg : WsConfig) (ctx : WsContext) (a : Nat)
    (data : TextDataset) (f : Nat → ℚ) :
    (wsRunLogic { cfg with scorePerSample := some f } ctx a data).snd = [] ∨
    (wsRunLogic { cfg with scorePerSample := some f } ctx a data).snd =
      [WsEvent.segmentSearch] := by
  unfold wsRunLogic
  split
  · left
    rfl
  · split
    · left
      rfl
    · dsimp only
      split
      · left
        rfl
      · simp only [wsComputeScores]
        split <;> simp

/-- C9 (confirmed): when a caller-supplied per-sample score array is given,
the scoring block indexes it down to the feature table's row identifiers and
uses it directly (with its rounded mean as the average), and no model
prediction call — neither `predict` nor `predict_proba` — occurs anywhere in
the run. -/
theorem provided_scores_used_directly :
    (∀ (cfg : WsConfig) (ctx : WsContext) (a : Nat)
        (sampled ftRows encRows : List TextSample) (f : Nat → ℚ),
      wsComputeScores { cfg with scorePerSample := some f } ctx a sampled ftRows encRows =
        (.ok (ftRows.map (fun r => f r.idx),
          round3 (meanQ (ftRows.map (fun r => f r.idx)))), [])) ∧
    (∀ (cfg : WsConfig) (ctx : WsContext) (a : Nat) (data : TextDataset) (f : Nat → ℚ),
      WsEvent.predictCall ∉ (wsRunLogic { cfg with scorePerSample := some f } ctx a data).snd ∧
      WsEvent.predictProbaCall ∉
        (wsRunLogic { cfg with scorePerSample := some f } ctx a data).snd) := by
  constructor
  · intro cfg ctx a sampled ftRows encRows f
    rfl
  · intro cfg ctx a data f
    rcases ws_trace_provided cfg ctx a data f with h | h <;> simp [h]

/-- C4 (confirmed): every segment returned by the weak-segments search has
size at least `segment_minimum_size_ratio` times the number of samples
searched; candidates below the bound are discarded by the size filter and
never appear in the ranked result. -/
theorem weak_segments_min_size (enc : EncodedDataset) (scores : List ℚ) (ratio : ℚ)
    (s : WeakSegment) (h : s ∈ weakSegmentsSearch enc scores ratio) :
    ratio * (enc.rows.length : ℚ) ≤ (s.members.length : ℚ) := by
  unfold weakSegmentsSearch at h
  rw [List.mem_insertionSort] at h
  exact of_decide_eq_true (List.mem_filter.mp h).2

/-- C4 (witness): on the concrete two-row dataset with minimum size ratio
1/2, the lower segment is found by the search and satisfies the bound. -/
theorem weak_segments_min_size_witness :
    (⟨0, 1, false, [0], 0⟩ : WeakSegment) ∈
      weakSegmentsSearch ⟨rows2, [0]⟩ [0, 0] (1/2) ∧
    (1/2 : ℚ) * (((⟨rows2, [0]⟩ : EncodedDataset)).rows.length : ℚ) ≤
      (((⟨0, 1, false, [0], 0⟩ : WeakSegment)).members.length : ℚ) :=
  have hmem : (⟨0, 1, false, [0], 0⟩ : WeakSegment) ∈
      weakSegmentsSearch ⟨rows2, [0]⟩ [0, 0] (1/2) := by
    rw [search_rows2_12]
    decide
  ⟨hmem, weak_segments_min_size ⟨rows2, [0]⟩ [0, 0] (1/2) _ hmem⟩

/-- C5 (confirmed): when the segment search returns no segment, the
weak-segments run raises a `DeepchecksProcessError` — distinguishable by
constructor from any successful (even empty) result — whose message
suggests increasing the sample count and supplying more columns of the
segmented kind. -/
theorem empty_search_raises_process_error
    (cfg : WsConfig) (ctx : WsContext) (a : Nat) (data : TextDataset)
    (f : Nat → ℚ) (ftRows : List TextSample) (cols cats : List Nat)
    (h0 : cfg.scorePerSample = some f)
    (h1 : ctx.taskType ≠ .tokenClassification)
    (h2 : ctx.multiLabel = false)
    (h3 : getRelevantDataTable cfg ctx.randomState data.catCols
        (sampleRows ctx.randomState cfg.nSamples data.samples) = .ok (ftRows, cols, cats))
    (h4 : weakSegmentsSearch
        ⟨targetEncode ftRows cats cfg.categoricalAggregationThreshold, cols⟩
        (ftRows.map (fun r => f r.idx)) cfg.segmentMinimumSizeRatio = []) :
    (wsRunLogic cfg ctx a data).fst =
      .error (.processError (wsEmptySearchMsg cfg.segmentBy)) ∧
    (∃ pre post, wsEmptySearchMsg cfg.segmentBy =
      pre ++ "increasing n_samples" ++ post) ∧
    (∃ pre, wsEmptySearchMsg cfg.segmentBy =
      pre ++ "supply more " ++ cfg.segmentBy ++ ".") := by
  refine ⟨?_, ?_, ?_⟩
  · simp [wsRunLogic, wsComputeScores, h0, h1, h2, h3, h4]
  · refine ⟨"WeakSegmentsPerformance was unable to train an error model to find weak segments. Try ",
      " or supply more " ++ cfg.segmentBy ++ ".", ?_⟩
    simp only [wsEmptySearchMsg, ← String.append_assoc]
    rfl
  · exact ⟨"WeakSegmentsPerformance was unable to train an error model to find weak segments. Try increasing n_samples or ", rfl⟩

/-- Concrete configuration reaching the empty-search failure: provided
per-sample scores and a 0.9 minimum size ratio on the two-row dataset, so
both median-split candidates (size 1 each) are discarded. -/
def cfgC5 : WsConfig :=
  { cfgC1 with segmentMinimumSizeRatio := 9/10, scorePerSample := some (fun _ => 0) }

/-- C5 (witness): the concrete run raises the processing failure with the
knob-suggesting message. -/
theorem empty_search_raises_process_error_witness :
    (wsRunLogic cfgC5 ctxC1 0 dataC1).fst =
      .error (.processError (wsEmptySearchMsg cfgC5.segmentBy)) ∧
    (∃ pre post, wsEmptySearchMsg cfgC5.segmentBy =
      pre ++ "increasing n_samples" ++ post) ∧
    (∃ pre, wsEmptySearchMsg cfgC5.segmentBy =
      pre ++ "supply more " ++ cfgC5.segmentBy ++ ".") :=
  empty_search_raises_process_error cfgC5 ctxC1 0 dataC1 (fun _ => 0) rows2 [0] []
    rfl (by decide) rfl rfl
    (by
      show weakSegmentsSearch ⟨rows2, [0]⟩ [0, 0] (9/10) = ([] : List WeakSegment)
      exact search_rows2_910)

/-- C6 (confirmed): on a classification run without caller-supplied scores,
a model without `predict_proba` makes the check fail with the
unsupported-capability error of lines 74-77, raised before any probability
request or score computation. -/
theorem missing_proba_unsupported
    (cfg : WsConfig) (ctx : WsContext) (a : Nat) (data : TextDataset)
    (ftRows : List TextSample) (cols cats : List Nat)
    (h0 : cfg.scorePerSample = none)
    (h1 : ctx.taskType = .textClassification)
    (h2 : ctx.multiLabel = false)
    (h3 : ctx.modelPredictProba = none)
    (h4 : getRelevantDataTable cfg ctx.randomState data.catCols
        (sampleRows ctx.randomState cfg.nSamples data.samples) = .ok (ftRows, cols, cats)) :
    (wsRunLogic cfg ctx a data).fst = .error (.notSupported wsNoProbaMsg) ∧
    WsEvent.scoreComputed ∉ (wsRunLogic cfg ctx a data).snd ∧
    WsEvent.predictProbaCall ∉ (wsRunLogic cfg ctx a data).snd := by
  have hrun : wsRunLogic cfg ctx a data =
      (.error (.notSupported wsNoProbaMsg), [WsEvent.predictCall]) := by
    simp [wsRunLogic, wsComputeScores, h0, h1, h2, h3, h4]
  rw [hrun]
  exact ⟨rfl, by simp, by simp⟩

/-- Concrete context whose model exposes no `predict_proba`. -/
def ctxC6 : WsContext := { ctxC1 with modelPredictProba := none }

/-- C6 (witness): the concrete probability-less classification run fails
with the unsupported-capability error and no scoring event. -/
theorem missing_proba_unsupported_witness :
    (wsRunLogic cfgC1 ctxC6 0 dataC1).fst = .error (.notSupported wsNoProbaMsg) ∧
    WsEvent.scoreComputed ∉ (wsRunLogic cfgC1 ctxC6 0 dataC1).snd ∧
    WsEvent.predictProbaCall ∉ (wsRunLogic cfgC1 ctxC6 0 dataC1).snd :=
  missing_proba_unsupported cfgC1 ctxC6 0 dataC1 rows2 [0] [] rfl rfl rfl rfl rfl

/-- C8 (confirmed): a run without caller-supplied scores on any task type
other than text classification fails with an unsupported error (from the
early task guards or from the task-type branch of the scoring block) and
the segment search is never reached. -/
theorem non_classification_unsupported
    (cfg : WsConfig) (ctx : WsContext) (a : Nat) (data : TextDataset)
    (ftRows : List TextSample) (cols cats : List Nat)
    (h0 : cfg.scorePerSample = none)
    (h1 : ctx.taskType ≠ .textClassification)
    (h3 : getRelevantDataTable cfg ctx.randomState data.catCols
        (sampleRows ctx.randomState cfg.nSamples data.samples) = .ok (ftRows, cols, cats)) :
    (∃ msg, (wsRunLogic cfg ctx a data).fst = .error (.notSupported msg)) ∧
    WsEvent.segmentSearch ∉ (wsRunLogic cfg ctx a data).snd := by
  rcases htt : ctx.taskType with _ | _ | _
  · exact absurd htt h1
  · constructor
    · exact ⟨"The check is irrelevant for token classification tasks",
        by simp [wsRunLogic, htt]⟩
    · simp [wsRunLogic, htt]
  · rcases hm : ctx.multiLabel with _ | _
    · have hrun : wsRunLogic cfg ctx a data =
          (.error (.notSupported ("Weak segments performance check is not supported for " ++
            taskTypeName .otherTask ++ ".")), [WsEvent.predictCall]) := by
        simp [wsRunLogic, wsComputeScores, h0, htt, hm, h3]
      rw [hrun]
      exact ⟨⟨_, rfl⟩, by simp⟩
    · constructor
      · exact ⟨"The check is irrelevant for multi-label classification tasks",
          by simp [wsRunLogic, htt, hm]⟩
      · simp [wsRunLogic, htt, hm]

/-- Concrete context with a non-classification task type. -/
def ctxC8 : WsContext := { ctxC1 with taskType := .otherTask }

/-- C8 (witness): the concrete non-classification run fails with an
unsupported error before any segment search. -/
theorem non_classification_unsupported_witness :
    (∃ msg, (wsRunLogic cfgC1 ctxC8 0 dataC1).fst = .error (.notSupported msg)) ∧
    WsEvent.segmentSearch ∉ (wsRunLogic cfgC1 ctxC8 0 dataC1).snd :=
  non_classification_unsupported cfgC1 ctxC8 0 dataC1 rows2 [0] [] rfl (by decide) rfl

/-- C1 (amended): on the provided-scores path the reported average equals the
arithmetic mean of the indexed-down per-sample scores rounded to 3 decimals;
on the model path the reported average is the resolved scorer's aggregate
output on the dummy model rounded to 3 decimals — a quantity that need not
equal the mean of the per-sample score array. -/
theorem avg_score_by_path :
    (∀ (cfg : WsConfig) (ctx : WsContext) (a : Nat) (data : TextDataset)
        (f : Nat → ℚ) (ftRows : List TextSample) (cols cats : List Nat),
      cfg.scorePerSample = some f →
      ctx.taskType ≠ .tokenClassification →
      ctx.multiLabel = false →
      getRelevantDataTable cfg ctx.randomState data.catCols
          (sampleRows ctx.randomState cfg.nSamples data.samples) = .ok (ftRows, cols, cats) →
      (weakSegmentsSearch ⟨targetEncode ftRows cats cfg.categoricalAggregationThreshold, cols⟩
          (ftRows.map (fun r => f r.idx)) cfg.segmentMinimumSizeRatio).isEmpty = false →
      (wsRunLogic cfg ctx a data).fst =
        .ok ⟨weakSegmentsSearch ⟨targetEncode ftRows cats cfg.categoricalAggregationThreshold, cols⟩
              (ftRows.map (fun r => f r.idx)) cfg.segmentMinimumSizeRatio,
            round3 (meanQ (ftRows.map (fun r => f r.idx)))⟩) ∧
    (∀ (cfg : WsConfig) (ctx : WsContext) (a : Nat) (data : TextDataset)
        (pp : List TextSample → List (List ℚ)) (ftRows : List TextSample) (cols cats : List Nat),
      cfg.scorePerSample = none →
      ctx.taskType = .textClassification →
      ctx.multiLabel = false →
      ctx.modelPredictProba = some pp →
      getRelevantDataTable cfg ctx.randomState data.catCols
          (sampleRows ctx.randomState cfg.nSamples data.samples) = .ok (ftRows, cols, cats) →
      (weakSegmentsSearch ⟨targetEncode ftRows cats cfg.categoricalAggregationThreshold, cols⟩
          (ctx.negCE ((sampleRows ctx.randomState cfg.nSamples data.samples).map (fun r => r.label))
            (pp (sampleRows ctx.randomState cfg.nSamples data.samples)) ctx.modelClasses)
          cfg.segmentMinimumSizeRatio).isEmpty = false →
      (wsRunLogic cfg ctx a data).fst =
        .ok ⟨weakSegmentsSearch ⟨targetEncode ftRows cats cfg.categoricalAggregationThreshold, cols⟩
              (ctx.negCE ((sampleRows ctx.randomState cfg.nSamples data.samples).map (fun r => r.label))
                (pp (sampleRows ctx.randomState cfg.nSamples data.samples)) ctx.modelClasses)
              cfg.segmentMinimumSizeRatio,
            round3 ((cfg.alternativeScorer.getD ctx.defaultScorer)
              (ctx.modelPredict (sampleRows ctx.randomState cfg.nSamples data.samples))
              (pp (sampleRows ctx.randomState cfg.nSamples data.samples))
              (targetEncode ftRows cats cfg.categoricalAggregationThreshold))⟩) := by
  constructor
  · intro cfg ctx a data f ftRows cols cats h0 h1 h2 h3 h5
    simp [wsRunLogic, wsComputeScores, h0, h1, h2, h3, h5]
  · intro cfg ctx a data pp ftRows cols cats h0 h1 h2 hp h3 h5
    simp [wsRunLogic, wsComputeScores, dummyModelPredict, h0, h1, h2, hp, h3, h5]

/-- C1 (counterexample): a concrete model-path run (perfect binary
classifier, accuracy scorer) reports average score 1, while the per-sample
score array of that same run is the all-zero negative cross-entropy list,
whose mean rounded to 3 decimals is 0 — so the reported average does not
equal the rounded mean of the per-sample scores on the model path. -/
theorem avg_score_model_path_cex :
    (wsRunLogic cfgC1 ctxC1 0 dataC1).fst = .ok ⟨segsC1, 1⟩ ∧
    (wsComputeScores cfgC1 ctxC1 0 rows2 rows2 rows2).fst =
      .ok ([0, 0], 1) ∧
    round3 (meanQ [(0 : ℚ), 0]) = 0 ∧ (1 : ℚ) ≠ 0 := by
  refine ⟨by rw [run_eval_C1], ?_, round3_mean00, by norm_num⟩
  calc (wsComputeScores cfgC1 ctxC1 0 rows2 rows2 rows2).fst
      = .ok ([0, 0], round3 (accuracyScorer [0, 1] [[1, 0], [0, 1]] rows2)) := rfl
    _ = .ok ([0, 0], 1) := by rw [round3_acc]

/-- Concrete configuration for the provided-scores path: caller-supplied
all-zero scores and minimum size ratio 1/2. -/
def cfgProvided : WsConfig :=
  { cfgC1 with segmentMinimumSizeRatio := 1/2, scorePerSample := some (fun _ => 0) }

/-- C1 (witness for the amended theorem): both paths evaluated on concrete
runs — the provided-scores run reports the rounded mean 0, the model-path
run reports the rounded scorer output 1. -/
theorem avg_score_by_path_witness :
    (wsRunLogic cfgProvided ctxC1 0 dataC1).fst = .ok ⟨segsC1, 0⟩ ∧
    (wsRunLogic cfgC1 ctxC1 0 dataC1).fst = .ok ⟨segsC1, 1⟩ := by
  constructor
  · refine (avg_score_by_path.1 cfgProvided ctxC1 0 dataC1 (fun _ => 0) rows2 [0] []
      rfl (by decide) rfl rfl ?_).trans ?_
    · show (weakSegmentsSearch ⟨rows2, [0]⟩ [0, 0] (1/2)).isEmpty = false
      rw [search_rows2_12]
      rfl
    · show Except.ok (⟨weakSegmentsSearch ⟨rows2, [0]⟩ [0, 0] (1/2),
          round3 (meanQ [(0 : ℚ), 0])⟩ : WsResultValue) = .ok ⟨segsC1, 0⟩
      rw [search_rows2_12, round3_mean00]
  · refine (avg_score_by_path.2 cfgC1 ctxC1 0 dataC1 _ rows2 [0] []
      rfl rfl rfl rfl rfl ?_).trans ?_
    · show (weakSegmentsSearch ⟨rows2, [0]⟩ [0, 0] (1/20)).isEmpty = false
      rw [search_rows2_120]
      rfl
    · show Except.ok (⟨weakSegmentsSearch ⟨rows2, [0]⟩ [0, 0] (1/20),
          round3 (accuracyScorer [0, 1] [[1, 0], [0, 1]] rows2)⟩ : WsResultValue) =
        .ok ⟨segsC1, 1⟩
      rw [search_rows2_120, round3_acc]

end DeepchecksSpec
